import Mathlib

/-
Shallow embedding of the projects_api repository (Flask + in-memory cache).
Python numbers are modelled as rationals, Python lists as Lean lists,
Python dicts as association lists in insertion order, raised exceptions as
Except, and None as Option.none.  Each definition mirrors one function of
the source tree; the file ends with the theorems settling the claims.
-/

set_option maxRecDepth 8000

namespace ProjectsApi

/- §0  String primitives.  Python's str.split(sep) for a one-character sep,
   str.strip(), str.replace(old, '') for a one-character old, str.lower() (the
   source data is ASCII; Char.toLower matches Python on ASCII), s[0], and
   str.startswith, re-implemented by structural recursion over the character
   list so that every definition evaluates inside the kernel. -/

def splitOnCharGo (sep : Char) : List Char → List Char → List String
  | [], acc => [⟨acc.reverse⟩]
  | c :: rest, acc =>
      if c = sep then ⟨acc.reverse⟩ :: splitOnCharGo sep rest []
      else splitOnCharGo sep rest (c :: acc)

def strSplitOnChar (sep : Char) (s : String) : List String :=
  splitOnCharGo sep s.data []

def isSpaceChar (c : Char) : Bool :=
  c = ' ' || c = '\t' || c = '\n' || c = '\r' || c.toNat = 11 || c.toNat = 12

def strStrip (s : String) : String :=
  ⟨((s.data.dropWhile isSpaceChar).reverse.dropWhile isSpaceChar).reverse⟩

def strRemoveChar (c : Char) (s : String) : String :=
  ⟨s.data.filter (fun x => x ≠ c)⟩

def strLower (s : String) : String :=
  ⟨s.data.map Char.toLower⟩

def strStartsWith (s pre : String) : Bool :=
  pre.data.isPrefixOf s.data

/- §1  Python float() on plain decimal / exponent literals.
   Models float(s) for strings of the shape [+|-] digits [. digits] [(e|E) [+|-] digits].
   The special spellings inf/nan and digit-group underscores accepted by CPython are
   not modelled; nan coordinates would in any case be rejected by the range checks
   of ProjectCoordinates, which is the only consumer that could meet them. -/

def digitsToNat (cs : List Char) : Nat :=
  cs.foldl (fun a c => a * 10 + (c.toNat - 48)) 0

def parseMantissa (cs : List Char) : Option ℚ :=
  let ip := cs.takeWhile Char.isDigit
  let rest := cs.dropWhile Char.isDigit
  match rest with
  | [] => if ip.isEmpty then none else some (digitsToNat ip : ℚ)
  | '.' :: fp =>
      if fp.all Char.isDigit && !(ip.isEmpty && fp.isEmpty) then
        some ((digitsToNat ip : ℚ) + (digitsToNat fp : ℚ) / (10 : ℚ) ^ fp.length)
      else none
  | _ => none

def splitSign : List Char → Bool × List Char
  | '+' :: t => (false, t)
  | '-' :: t => (true, t)
  | t => (false, t)

def parseFloat? (s : String) : Option ℚ :=
  let (neg, cs) := splitSign s.data
  let mant := cs.takeWhile (fun c => c != 'e' && c != 'E')
  let rest := cs.dropWhile (fun c => c != 'e' && c != 'E')
  let signed : ℚ → ℚ := fun q => if neg then -q else q
  match rest with
  | [] => (parseMantissa mant).map signed
  | _ :: ecs =>
      let (eneg, eds) := splitSign ecs
      if !eds.isEmpty && eds.all Char.isDigit then
        (parseMantissa mant).map fun m =>
          signed (m * (10 : ℚ) ^ (if eneg then -(digitsToNat eds : ℤ) else (digitsToNat eds : ℤ)))
      else none

/- §2  app/models/schemas.py -/

structure ViewportParams where
  min_lat : ℚ
  max_lat : ℚ
  min_lng : ℚ
  max_lng : ℚ
deriving DecidableEq, Repr

/- ViewportParams.__init__: the numeric isinstance check is vacuous here because the
   model's arguments are already numbers; the remaining checks raise ValueError. -/
def mkViewportParams (min_lat max_lat min_lng max_lng : ℚ) : Except String ViewportParams :=
  if min_lat > max_lat ∨ min_lng > max_lng then
    .error "Min values cannot be greater than max values"
  else if ¬(-90 ≤ min_lat ∧ min_lat ≤ 90 ∧ -90 ≤ max_lat ∧ max_lat ≤ 90) then
    .error "Latitude must be between -90 and 90 degrees"
  else if ¬(-180 ≤ min_lng ∧ min_lng ≤ 180 ∧ -180 ≤ max_lng ∧ max_lng ≤ 180) then
    .error "Longitude must be between -180 and 180 degrees"
  else
    .ok ⟨min_lat, max_lat, min_lng, max_lng⟩

/- ProjectCoordinates.__init__, collapsed to Option: the unpacking of split(",")
   requires exactly two parts, each part is stripped and parsed by float(), and the
   latitude/longitude range checks reject out-of-range pairs.  Every failure mode of
   the source raises ValueError, which the viewport filter catches, so Option.none
   models all of them. -/
def parseCoordinates (s : String) : Option (ℚ × ℚ) :=
  match strSplitOnChar ',' s with
  | [latS, lngS] =>
      match parseFloat? (strStrip latS), parseFloat? (strStrip lngS) with
      | some lat, some lng =>
          if -90 ≤ lat ∧ lat ≤ 90 ∧ -180 ≤ lng ∧ lng ≤ 180 then some (lat, lng) else none
      | _, _ => none
  | _ => none

/- §3  app/utils/location_utils.py -/

/- One cached project/property as seen by the viewport filter: the value stored
   under the lowercase "coordinates" key, the value stored under the capitalized
   "Coordinates" key ("" encodes an absent key, matching the .get default), and an
   opaque payload standing for all remaining fields. -/
structure GeoRecord where
  coordinates : String
  coordinatesCap : String
  payload : Nat
deriving DecidableEq, Repr

/- project.get("coordinates", "") or project.get("Coordinates", ""):
   Python's `or` takes the second operand when the first is the empty string. -/
def coordString (p : GeoRecord) : String :=
  if p.coordinates ≠ "" then p.coordinates else p.coordinatesCap

def is_point_in_viewport (lat lng : ℚ) (viewport : ViewportParams) : Bool :=
  decide (viewport.min_lat ≤ lat) && decide (lat ≤ viewport.max_lat) &&
    decide (viewport.min_lng ≤ lng) && decide (lng ≤ viewport.max_lng)

/- The per-entity test of the filter loop: the `if not coord_str: continue` branch
   coincides with parseCoordinates returning none on "". -/
def viewportKeeps (viewport : ViewportParams) (p : GeoRecord) : Bool :=
  match parseCoordinates (coordString p) with
  | some (lat, lng) => is_point_in_viewport lat lng viewport
  | none => false

def filter_projects_by_viewport : List GeoRecord → ViewportParams → List GeoRecord
  | [], _ => []
  | p :: rest, viewport =>
      if viewportKeeps viewport p then p :: filter_projects_by_viewport rest viewport
      else filter_projects_by_viewport rest viewport

/- §4  app/utils/pagination_utils.py -/

structure ViewportPage where
  total : Nat
  page : ℤ
  limit : ℤ
  offset : ℤ
  viewport : ViewportParams
  projects : List GeoRecord
  has_more : Bool
  message : Option String
deriving DecidableEq, Repr

def get_projects_in_viewport (projects_cache : List GeoRecord)
    (minLat maxLat minLng maxLng : ℚ) (page limit offset : ℤ) : Except String ViewportPage :=
  match mkViewportParams minLat maxLat minLng maxLng with
  | .error e => .error ("Invalid viewport parameters: " ++ e)
  | .ok viewport =>
      let in_viewport := filter_projects_by_viewport projects_cache viewport
      let page1 := max 1 page
      let limit1 := min 500 (max 1 limit)
      let offset1 := max 0 offset
      let start := (page1 - 1) * limit1 + offset1
      let stop := start + limit1
      if start ≥ (in_viewport.length : ℤ) then
        .ok ⟨in_viewport.length, page1, limit1, offset1, viewport, [], false,
          some "Page number exceeds available data for this viewport"⟩
      else
        .ok ⟨in_viewport.length, page1, limit1, offset1, viewport,
          (in_viewport.drop start.toNat).take limit1.toNat,
          decide (stop < (in_viewport.length : ℤ)), none⟩

/- A list slice over integer indices: the elements at positions i with
   start ≤ i < stop, indices counted from 0.  Used to state the claims about
   Python's l[start:stop] in the nonnegative regime where both readings agree. -/
def listSlice {α : Type} (l : List α) (start stop : ℤ) : List α :=
  (l.drop start.toNat).take (stop - max start 0).toNat

/- §5  app/routes/search.py — the search core shared verbatim by
   search_commercial_projects and search_residential_projects (they differ only in
   which global cache/index pair they read).  Entities are modelled by their name
   (the sort key read by x['name'].lower()) plus an opaque payload; the name index
   maps a lowercased name to the positions recorded for it, in insertion order. -/

structure NamedRecord where
  name : String
  payload : Nat
deriving DecidableEq, Repr

def nameLe (a b : NamedRecord) : Bool :=
  decide (strLower a.name ≤ strLower b.name)

/- The loop over the index keys: positions of every key with the search term as a
   prefix, pooled as a set.  dedup models Python's set union (first occurrence
   kept; the pooled order is irrelevant because the result is re-sorted). -/
def prefixMatchPositions (search_term : String) (index : List (String × List Nat)) : List Nat :=
  ((index.filter (fun kv => strStartsWith kv.1 search_term)).flatMap (fun kv => kv.2)).dedup

structure SearchPage where
  total : Nat
  limit : ℤ
  offset : ℤ
  projects : List NamedRecord
  has_more : Bool
  message : Option String
deriving DecidableEq, Repr

/- The route body after the 202-initializing guard: empty search term → 400; a
   position outside the cache would raise IndexError, reported as the 500 branch
   of the route (.error "Internal server error"). -/
/- matching_projects after materialization and the stable sort by lowercased name. -/
def sortedMatches (search_term : String) (index : List (String × List Nat))
    (cache : List NamedRecord) : List NamedRecord :=
  ((prefixMatchPositions search_term index).filterMap (fun i => cache.get? i)).mergeSort nameLe

def search_projects (search_term : String) (index : List (String × List Nat))
    (cache : List NamedRecord) (limit offset : ℤ) : Except String SearchPage :=
  if search_term = "" then .error "Search term is required"
  else
    let limit1 := min 100 (max 1 limit)
    let offset1 := max 0 offset
    let positions := prefixMatchPositions search_term index
    if positions.all (fun i => i < cache.length) then
      let matching := sortedMatches search_term index cache
      if offset1 ≥ (matching.length : ℤ) then
        .ok ⟨matching.length, limit1, offset1, [], false, some "Offset exceeds available data"⟩
      else
        .ok ⟨matching.length, limit1, offset1,
          (matching.drop offset1.toNat).take limit1.toNat,
          decide (offset1 + limit1 < (matching.length : ℤ)), none⟩
    else .error "Internal server error"

/- §6  app/utils/filter_utils.py -/

/- A Python value that is either a string or a list of strings, as stored in the
   duck-typed locality field and as accepted by the list-valued filter params. -/
inductive StrOrList where
  | str : String → StrOrList
  | list : List String → StrOrList
deriving DecidableEq, Repr

/- The price value of a property: absent key (none), a number, or text. -/
inductive PriceVal where
  | str : String → PriceVal
  | num : ℚ → PriceVal
deriving DecidableEq, Repr

/- One residential/commercial property as read by the filter functions.
   transactionType is Option because prop.get("transactionType") defaults to None;
   bhk and propertyType default to "" via prop.get(key, ""); locality defaults to
   the empty string value.  payload stands for the remaining fields. -/
structure PropRecord where
  name : String
  price : Option PriceVal
  transactionType : Option String
  bhk : String
  propertyType : String
  locality : StrOrList
  payload : Nat
deriving DecidableEq, Repr

/- prop_price string branch: replace(',','').replace('₹','').strip() then float(). -/
def parsePriceStr (s : String) : Option ℚ :=
  parseFloat? (strStrip (strRemoveChar '₹' (strRemoveChar ',' s)))

def propPriceParsed : Option PriceVal → Option ℚ
  | none => none
  | some (.num q) => some q
  | some (.str s) => parsePriceStr s

/- bhk normalization: `if bhk:` makes "" and [] fall through to None, a nonempty
   string becomes a one-element list, and a nonempty list is lowercased. -/
def normBhkArg : Option StrOrList → Option (List String)
  | some (.str s) => if s ≠ "" then some [strLower s] else none
  | some (.list l) => if l ≠ [] then some (l.map strLower) else none
  | none => none

/- propertyType/locality normalization: the isinstance(str) test runs first, so
   even the empty string becomes [""]; an empty list falls through to None. -/
def normListArg : Option StrOrList → Option (List String)
  | some (.str s) => some [s]
  | some (.list l) => if l ≠ [] then some l else none
  | none => none

/- `[x.strip().lower() for x in xs]` applied when the normalized list is present. -/
def normListArgLower (a : Option StrOrList) : Option (List String) :=
  (normListArg a).map (List.map (fun x => strLower (strStrip x)))

/- The body of the residential filter loop for one (non-null) property: each
   criterion contributes a `continue` condition; the property is kept when none
   fires.  Criteria arrive already normalized. -/
def residentialPasses (price_min price_max : Option ℚ) (bhkN : Option (List String))
    (transaction_type : Option String) (ptN locN : Option (List String))
    (prop : PropRecord) : Bool :=
  let prop_price := propPriceParsed prop.price
  let failMin :=
    match price_min with
    | some lo => match prop_price with | none => true | some q => decide (q < lo)
    | none => false
  let failMax :=
    match price_max with
    | some hi => match prop_price with | none => true | some q => decide (hi < q)
    | none => false
  let failBhk :=
    match bhkN with
    | some bs => !(bs.any (fun b => decide (b.data <:+: (strLower prop.bhk).data)))
    | none => false
  let failTt :=
    match transaction_type with
    | some t => t ≠ "" && prop.transactionType ≠ some t
    | none => false
  let failPt :=
    match ptN with
    | some ts => !(ts.contains (strLower prop.propertyType))
    | none => false
  let failLoc :=
    match locN with
    | some ls =>
        let prop_localities :=
          match prop.locality with
          | .str s => [strLower s]
          | .list xs => xs.map strLower
        !(ls.any (fun l => prop_localities.contains l))
    | none => false
  !(failMin || failMax || failBhk || failTt || failPt || failLoc)

/- The commercial filter is the residential one without the bhk criterion. -/
def commercialPasses (price_min price_max : Option ℚ) (transaction_type : Option String)
    (ptN locN : Option (List String)) (prop : PropRecord) : Bool :=
  residentialPasses price_min price_max none transaction_type ptN locN prop

/- The filter loop: a null entry raises AttributeError inside the per-property
   try/except, which logs and continues, i.e. skips the entry. -/
def filterResGo (price_min price_max : Option ℚ) (bhkN : Option (List String))
    (transaction_type : Option String) (ptN locN : Option (List String)) :
    List (Option PropRecord) → List PropRecord
  | [] => []
  | none :: rest => filterResGo price_min price_max bhkN transaction_type ptN locN rest
  | some prop :: rest =>
      if residentialPasses price_min price_max bhkN transaction_type ptN locN prop then
        prop :: filterResGo price_min price_max bhkN transaction_type ptN locN rest
      else filterResGo price_min price_max bhkN transaction_type ptN locN rest

def filter_residential_properties (properties : List (Option PropRecord))
    (price_min price_max : Option ℚ) (bhk : Option StrOrList)
    (transaction_type : Option String) (propertyType locality : Option StrOrList) :
    List PropRecord :=
  filterResGo price_min price_max (normBhkArg bhk) transaction_type
    (normListArgLower propertyType) (normListArgLower locality) properties

def filterComGo (price_min price_max : Option ℚ) (transaction_type : Option String)
    (ptN locN : Option (List String)) : List (Option PropRecord) → List PropRecord
  | [] => []
  | none :: rest => filterComGo price_min price_max transaction_type ptN locN rest
  | some prop :: rest =>
      if commercialPasses price_min price_max transaction_type ptN locN prop then
        prop :: filterComGo price_min price_max transaction_type ptN locN rest
      else filterComGo price_min price_max transaction_type ptN locN rest

def filter_commercial_properties (properties : List (Option PropRecord))
    (price_min price_max : Option ℚ) (transaction_type : Option String)
    (propertyType locality : Option StrOrList) : List PropRecord :=
  filterComGo price_min price_max transaction_type
    (normListArgLower propertyType) (normListArgLower locality) properties

/- §7  app/services/formatter_service.py -/

/- A raw Airtable field value: a string, or a list of strings (Airtable returns
   lists for linked-record and attachment fields). -/
inductive FieldVal where
  | str : String → FieldVal
  | list : List String → FieldVal
deriving DecidableEq, Repr

/- A formatted entity and a raw fields mapping are both Python dicts from field
   name to value, modelled as association lists in insertion order. -/
abbrev Entity := List (String × FieldVal)

/- fields.get(key): None when the key is absent. -/
def fget (fields : Entity) (key : String) : Option FieldVal :=
  (fields.find? (fun kv => kv.1 = key)).map (fun kv => kv.2)

/- fields.get(key, default). -/
def fgetD (fields : Entity) (key : String) (d : FieldVal) : FieldVal :=
  (fget fields key).getD d

/- Python truthiness of a field value. -/
def vtruthy : FieldVal → Bool
  | .str s => s ≠ ""
  | .list l => !l.isEmpty

/- value.split(","): only strings have .split, a list raises AttributeError. -/
def vSplitComma : FieldVal → Option (List String)
  | .str s => some (strSplitOnChar ',' s)
  | .list _ => none

/- value[0]: first character of a string / first element of a list; raises on
   empty values. -/
def vFirst : FieldVal → Option FieldVal
  | .str s =>
      match s.data with
      | [] => none
      | c :: _ => some (.str ⟨[c]⟩)
  | .list [] => none
  | .list (x :: _) => some (.str x)

/- value.lower(): only strings have .lower, a list raises AttributeError. -/
def vLower : FieldVal → Option String
  | .str s => some (strLower s)
  | .list _ => none

/- One raw record: record["fields"] / record["id"] raise KeyError when absent,
   hence the Options. -/
structure AirtableRecord where
  id : Option String
  fields : Option Entity
deriving DecidableEq, Repr

def format_residential_project (record : AirtableRecord) : Option Entity :=
  match record.fields, record.id with
  | some fields, some rid =>
      let brochure_url :=
        if vtruthy (fgetD fields "Brochure Storage URL" (.str "")) then
          fgetD fields "Brochure Storage URL" (.str "")
        else FieldVal.str ""
      let cover0 :=
        if vtruthy (fgetD fields "Cover Photo Storage URL" (.str "")) then
          fgetD fields "Cover Photo Storage URL" (.str "")
        else FieldVal.str ""
      let certificate_url :=
        if vtruthy (fgetD fields "Certificate Storage URL" (.str "")) then
          fgetD fields "Certificate Storage URL" (.str "")
        else FieldVal.str ""
      let photosV := fgetD fields "Photos" (.str "")
      -- `if fields.get("Photos"): cover = fields.get("Photos").split(",")[0]`;
      -- .split on a list value raises, nulling the whole record via the except.
      let coverE : Option FieldVal :=
        if vtruthy photosV then (vSplitComma photosV).map (fun parts => FieldVal.str (parts.headD ""))
        else some cover0
      match coverE with
      | none => none
      | some cover_photo_url =>
          -- the source dict literal repeats the planPassingAuthority key with the
          -- same value; the resulting dict holds it once, at its first position
          some [("rera", fgetD fields "RERA Number" (.str "")),
                ("name", fgetD fields "Project Name" (.str "")),
                ("brochureLink", brochure_url),
                ("coverPhotoLink", cover_photo_url),
                ("certificateLink", certificate_url),
                ("promoterName", fgetD fields "Promoter Name" (.str "")),
                ("mobile", fgetD fields "Mobile" (.str "")),
                ("projectType", fgetD fields "Project Type" (.str "")),
                ("startDate", fgetD fields "Project Start Date" (.str "")),
                ("endDate", fgetD fields "Project End Date" (.str "")),
                ("projectLandArea", fgetD fields "Land Area (Sqyrds)" (.str "")),
                ("projectAddress", fgetD fields "Project Address" (.str "")),
                ("projectStatus", fgetD fields "Project Status" (.str "")),
                ("totalUnits", fgetD fields "Total Units" (.str "")),
                ("totalUnitsAvailable", fgetD fields "Available Units" (.str "")),
                ("numberOfTowers", fgetD fields "Total No Of Towers" (.str "")),
                ("planPassingAuthority", fgetD fields "Plan Passing Authority" (.str "")),
                ("coordinates", fgetD fields "coordinates" (.str "")),
                ("photos", fgetD fields "Photos" (.str "")),
                ("price", fgetD fields "Price" (.str "")),
                ("bhk", fgetD fields "BHK" (.str "")),
                ("localityNames", fgetD fields "Name (from Locality)" (.str "")),
                ("configuration", fgetD fields "Configuration" (.str "")),
                ("airtable_id", FieldVal.str rid)]
  | _, _ => none

/- format_commercial_project reads only record["fields"]; its output dict has no
   airtable_id entry and keeps the capitalized Coordinates key. -/
def format_commercial_project (record : AirtableRecord) : Option Entity :=
  match record.fields with
  | some fields =>
      let brochure_url :=
        if vtruthy (fgetD fields "Brochure Storage URL" (.str "")) then
          fgetD fields "Brochure Storage URL" (.str "")
        else FieldVal.str ""
      let cover_photo_url :=
        if vtruthy (fgetD fields "Cover Photo Storage URL" (.str "")) then
          fgetD fields "Cover Photo Storage URL" (.str "")
        else FieldVal.str ""
      let certificate_url :=
        if vtruthy (fgetD fields "Certificate Storage URL" (.str "")) then
          fgetD fields "Certificate Storage URL" (.str "")
        else FieldVal.str ""
      some [("rera", fgetD fields "RERA Number" (.str "")),
            ("name", fgetD fields "Project Name" (.str "")),
            ("brochureLink", brochure_url),
            ("coverPhotoLink", cover_photo_url),
            ("certificateLink", certificate_url),
            ("promoterName", fgetD fields "Promoter Name" (.str "")),
            ("email", fgetD fields "Email Id" (.str "")),
            ("promoterPhone", fgetD fields "Promoter Phone" (.str "")),
            ("promoterAddress", fgetD fields "Promoter Address" (.str "")),
            ("mobile", fgetD fields "Mobile" (.str "")),
            ("projectType", fgetD fields "Project Type" (.str "")),
            ("district", fgetD fields "District" (.str "")),
            ("approvedDate", fgetD fields "Approved on" (.str "")),
            ("originalEndDate", fgetD fields "Project Original End Date" (.str "")),
            ("extendedEndDate", fgetD fields "Project Extended End Date" (.str "")),
            ("projectLandArea", fgetD fields "Project Land Area (Sq Mtrs)" (.str "")),
            ("averageCarpetArea", fgetD fields "Average Carpet Area of Units (Sq Mtrs)" (.str "")),
            ("totalOpenArea", fgetD fields "Total Open Area (Sq Mtrs)" (.str "")),
            ("totalCoveredArea", fgetD fields "Total Covered Area (Sq Mtrs)" (.str "")),
            ("projectAddress", fgetD fields "Project Address" (.str "")),
            ("aboutProject", fgetD fields "About Property" (.str "")),
            ("startDate", fgetD fields "Project Start Date" (.str "")),
            ("endDate", fgetD fields "Project End Date" (.str "")),
            ("projectStatus", fgetD fields "Project Status" (.str "")),
            ("type", fgetD fields "Type" (.str "")),
            ("totalUnits", fgetD fields "Total Units" (.str "")),
            ("totalUnitsAvailable", fgetD fields "Available Units" (.str "")),
            ("numberOfTowers", fgetD fields "Total No Of Towers" (.str "")),
            ("planPassingAuthority", fgetD fields "Plan Passing Authority" (.str "")),
            ("Coordinates", fgetD fields "Coordinates" (.str ""))]
  | none => none

def format_locality (record : AirtableRecord) : Option Entity :=
  match record.fields with
  | some fields => some [("name", fgetD fields "Name" (.str ""))]
  | none => none

/- get_linked_project_photos: iterates the formatted residential projects cache.
   A null (None) entry makes project.get("rera") raise AttributeError, modelled by
   the .error branch; the caller's blanket except then nulls the whole property. -/
def get_linked_project_photos (rera_number : FieldVal) (residential_projects_cache : List (Option Entity)) :
    Except Unit (Option (List String)) :=
  match residential_projects_cache with
  | [] => .ok none
  | none :: _ => .error ()
  | some project :: rest =>
      match vFirst rera_number with
      | none => .error ()
      | some r0 =>
          if fget project "rera" = some r0 then
            match vSplitComma (fgetD project "photos" (.str "")) with
            | none => .error ()
            | some parts => .ok (some parts)
          else get_linked_project_photos rera_number rest

def format_residential_property (record : AirtableRecord)
    (residential_projects_cache : List (Option Entity)) : Option Entity :=
  match record.fields with
  | none => none
  | some fields =>
      let photos0 := fgetD fields "Photos" (.str "")
      let linked := fgetD fields "RERA Number (from residential projects)" (.str "")
      -- (not photos or photos == "" or photos == []) is exactly non-truthiness
      -- for string/list values
      let photosE : Except Unit FieldVal :=
        if !vtruthy photos0 && vtruthy linked && !residential_projects_cache.isEmpty then
          match get_linked_project_photos linked residential_projects_cache with
          | .error e => .error e
          | .ok none => .ok photos0
          | .ok (some parts) => .ok (.str (parts.headD ""))
        else .ok photos0
      match photosE, record.id with
      | .ok photos, some rid =>
          some [("name", fgetD fields "Property Name" (.str "")),
                ("price", fgetD fields "Price" (.str "")),
                ("transactionType", fgetD fields "Transaction Type" (.str "")),
                ("locality", fgetD fields "Name (from Localities)" (.str "")),
                ("photos", photos),
                ("size", fgetD fields "Size in Sqfts" (.str "")),
                ("propertyType", fgetD fields "Property Type" (.str "")),
                ("coordinates", fgetD fields "Property Coordinates" (.str "")),
                ("landmark", fgetD fields "Landmark" (.str "")),
                ("condition", fgetD fields "Condition" (.str "")),
                ("date", fgetD fields "Date" (.str "")),
                ("bhk", fgetD fields "BHK" (.str "")),
                ("airtable_id", FieldVal.str rid),
                ("linked_project_rera", fgetD fields "RERA Number (from residential projects)" (.str ""))]
      | _, _ => none

def format_commercial_property (record : AirtableRecord) : Option Entity :=
  match record.fields, record.id with
  | some fields, some rid =>
      let photos0 := fgetD fields "Photos" (.str "")
      -- inner try/except: a .split failure is caught locally and yields ''
      let photos :=
        if !vtruthy photos0 then FieldVal.str ""
        else
          match vSplitComma photos0 with
          | some parts => FieldVal.str (parts.headD "")
          | none => FieldVal.str ""
      some [("name", fgetD fields "Property Name" (.str "")),
            ("price", fgetD fields "Price" (.str "")),
            ("transactionType", fgetD fields "Transaction Type" (.str "")),
            ("locality", fgetD fields "Name (from Localities)" (.str "")),
            ("photos", photos),
            ("size", fgetD fields "Size in Sqfts" (.str "")),
            ("propertyType", fgetD fields "Property Type" (.str "")),
            ("coordinates", fgetD fields "Property Coordinates" (.str "")),
            ("landmark", fgetD fields "Landmark" (.str "")),
            ("condition", fgetD fields "Condition" (.str "")),
            ("date", fgetD fields "Date" (.str "")),
            ("airtable_id", FieldVal.str rid)]
  | _, _ => none

/- §8  app/routes/properties.py — the by-id scan shared by
   get_residential_property_by_id and get_commercial_property_by_id.  A null cache
   entry makes property["airtable_id"] raise TypeError (and a missing key KeyError),
   which the route-level except turns into a 500: the .error branch.  propertyId is
   Option because request.args.get returns None when the parameter is absent. -/

def valEqOptStr : FieldVal → Option String → Bool
  | .str s, some t => s = t
  | _, _ => false

def property_by_id_scan (properties_cache : List (Option Entity)) (property_id : Option String) :
    Except Unit (Option Entity) :=
  match properties_cache with
  | [] => .ok none
  | none :: _ => .error ()
  | some property :: rest =>
      match fget property "airtable_id" with
      | none => .error ()
      | some v =>
          if valEqOptStr v property_id then .ok (some property)
          else property_by_id_scan rest property_id

/- §9  app/services/cache_service.py -/

structure CacheState where
  residential_projects_cache : List (Option Entity)
  commercial_projects_cache : List (Option Entity)
  residential_properties_cache : List (Option Entity)
  commercial_properties_cache : List (Option Entity)
  localities_cache : List (Option Entity)
  commercial_projects_name_index : List (String × List Nat)
  residential_projects_name_index : List (String × List Nat)
  cache_initialization_started : Bool
  cache_initialized : Bool
deriving DecidableEq, Repr

/- Appending an index position under a key, preserving dict insertion order. -/
def indexInsert (ix : List (String × List Nat)) (key : String) (idx : Nat) :
    List (String × List Nat) :=
  if (ix.find? (fun kv => kv.1 = key)).isSome then
    ix.map (fun kv => if kv.1 = key then (kv.1, kv.2 ++ [idx]) else kv)
  else ix ++ [(key, [idx])]

/- build_commercial_projects_index / build_residential_projects_index: the global
   is reset to {} and filled incrementally; `if project and project.get('name')`
   skips null entries and falsy names; name.lower() raises when the name value is a
   list, leaving the partially built dict in the global — the Bool records whether
   the build ran to completion. -/
def buildIndexGo : List (Option Entity) → Nat → List (String × List Nat) →
    List (String × List Nat) × Bool
  | [], _, acc => (acc, true)
  | none :: rest, idx, acc => buildIndexGo rest (idx + 1) acc
  | some project :: rest, idx, acc =>
      match fget project "name" with
      | none => buildIndexGo rest (idx + 1) acc
      | some v =>
          if !vtruthy v then buildIndexGo rest (idx + 1) acc
          else
            match vLower v with
            | some name_key => buildIndexGo rest (idx + 1) (indexInsert acc name_key idx)
            | none => (acc, false)

def build_projects_index (cache : List (Option Entity)) : List (String × List Nat) × Bool :=
  buildIndexGo cache 0 []

/- The five datasets returned by the Remote Source Adapter; any fetch raising at
   any of the five sequential fetch steps aborts the try block before anything is
   assigned, so a single Except covers all five steps. -/
structure FetchData where
  residential_projects : List AirtableRecord
  commercial_projects : List AirtableRecord
  residential_properties : List AirtableRecord
  commercial_properties : List AirtableRecord
  localities : List AirtableRecord
deriving DecidableEq, Repr

/- init_cache.  The formatters catch their own exceptions and return None, so the
   formatting comprehensions never raise; after the collections are assigned, the
   two index builds may raise.  The except branch resets the five collections to
   empty and touches nothing else: the indices keep whatever they held and both
   lifecycle flags keep their values.  CACHE_INITIALIZED is set only on the fully
   successful path. -/
def init_cache (s : CacheState) (fetch : Except Unit FetchData) : CacheState :=
  match fetch with
  | .error _ =>
      ⟨[], [], [], [], [],
        s.commercial_projects_name_index, s.residential_projects_name_index,
        s.cache_initialization_started, s.cache_initialized⟩
  | .ok d =>
      let res := d.residential_projects.map format_residential_project
      let com := d.commercial_projects.map format_commercial_project
      let resProp := d.residential_properties.map (fun r => format_residential_property r res)
      let comProp := d.commercial_properties.map (fun r => format_commercial_property r)
      let loc := d.localities.map format_locality
      match build_projects_index com with
      | (comIx, false) =>
          ⟨[], [], [], [], [], comIx, s.residential_projects_name_index,
            s.cache_initialization_started, s.cache_initialized⟩
      | (comIx, true) =>
          match build_projects_index res with
          | (resIx, false) =>
              ⟨[], [], [], [], [], comIx, resIx,
                s.cache_initialization_started, s.cache_initialized⟩
          | (resIx, true) =>
              ⟨res, com, resProp, comProp, loc, comIx, resIx,
                s.cache_initialization_started, true⟩

/- ensure_cache_initialized, executed atomically: returns (result, launched a
   background population thread, new state). -/
def ensure_cache_initialized (s : CacheState) : Bool × Bool × CacheState :=
  if s.cache_initialized then (true, false, s)
  else if s.cache_initialization_started then (false, false, s)
  else
    (false, true,
      ⟨s.residential_projects_cache, s.commercial_projects_cache,
        s.residential_properties_cache, s.commercial_properties_cache, s.localities_cache,
        s.commercial_projects_name_index, s.residential_projects_name_index,
        true, s.cache_initialized⟩)

/- Number of population threads launched across n consecutive (atomic) calls. -/
def ensureLaunches : CacheState → Nat → Nat
  | _, 0 => 0
  | s, n + 1 =>
      let r := ensure_cache_initialized s
      (if r.2.1 then 1 else 0) + ensureLaunches r.2.2 n

structure UpdateResponse where
  status : String
  message : String
  total_projects : Nat
deriving DecidableEq, Repr

/- update_cache: calls init_cache unconditionally (no state guard) and reports
   success with the new residential count; init_cache swallows its own exceptions,
   so no error ever reaches this caller. -/
def update_cache (s : CacheState) (fetch : Except Unit FetchData) :
    CacheState × UpdateResponse :=
  let s1 := init_cache s fetch
  (s1, ⟨"success", "Cache updated successfully", s1.residential_projects_cache.length⟩)

/- §10  ensure_cache_initialized under thread interleaving.  The body is three
   separately executed steps: the CACHE_INITIALIZED check (line 118), the
   CACHE_INITIALIZATION_STARTED check (line 122), and the unguarded set-and-launch
   (lines 126-127).  Two request threads each run one call; a schedule lists which
   thread takes the next step. -/

inductive EnsurePc where
  | checkInit
  | checkStarted
  | setLaunch
  | done
deriving DecidableEq, Repr

/- One step of one thread: next pc, new started flag, whether this step launched
   a population thread. -/
def ensureStep (pc : EnsurePc) (started initialized : Bool) : EnsurePc × Bool × Bool :=
  match pc with
  | .checkInit => (if initialized then .done else .checkStarted, started, false)
  | .checkStarted => (if started then .done else .setLaunch, started, false)
  | .setLaunch => (.done, true, true)
  | .done => (.done, started, false)

structure TwoThreadConfig where
  started : Bool
  initialized : Bool
  pcA : EnsurePc
  pcB : EnsurePc
  launches : Nat
deriving DecidableEq, Repr

/- Run a schedule; false schedules thread A, true schedules thread B. -/
def runSchedule : TwoThreadConfig → List Bool → TwoThreadConfig
  | cfg, [] => cfg
  | cfg, tid :: rest =>
      let pc := if tid then cfg.pcB else cfg.pcA
      let r := ensureStep pc cfg.started cfg.initialized
      let launchCount := cfg.launches + (if r.2.2 then 1 else 0)
      let cfg1 : TwoThreadConfig :=
        if tid then ⟨r.2.1, cfg.initialized, cfg.pcA, r.1, launchCount⟩
        else ⟨r.2.1, cfg.initialized, r.1, cfg.pcB, launchCount⟩
      runSchedule cfg1 rest

/- §11  Concrete fixtures used by witnesses and counterexamples. -/

def demoGeo : List GeoRecord :=
  [⟨"1,1", "", 0⟩, ⟨"", "", 1⟩, ⟨"bad", "", 2⟩, ⟨"50,50", "", 3⟩]

def vpDemo : ViewportParams := ⟨0, 10, 0, 10⟩

def geoA : GeoRecord := ⟨"1,1", "", 0⟩

def geoB : GeoRecord := ⟨"2,2", "", 1⟩

def resEntityDemo : Entity :=
  (format_residential_project ⟨some "rec1", some []⟩).getD []

def emptyCacheState : CacheState := ⟨[], [], [], [], [], [], [], false, false⟩

def loadingCacheState : CacheState := ⟨[], [], [], [], [], [], [], true, false⟩

def c1FailState : CacheState := ⟨[], [], [], [], [], [("a", [0])], [], true, false⟩

def c8PriorState : CacheState :=
  ⟨[some [("name", FieldVal.str "x")]], [], [], [], [], [], [], true, true⟩

def demoPropA : PropRecord := ⟨"a", some (.str "1,50,000"), none, "", "", .str "", 0⟩

def demoNamedCache : List NamedRecord := (List.range 10).map (fun i => ⟨toString i, i⟩)

def demoNameIndex : List (String × List Nat) :=
  [("kalhaar blues", [3]), ("kalptaru", [7]), ("zzz", [1])]

/- §12  Helper lemmas. -/

theorem filter_projects_by_viewport_eq_filter (ps : List GeoRecord) (vp : ViewportParams) :
    filter_projects_by_viewport ps vp = ps.filter (viewportKeeps vp) := by
  induction ps with
  | nil => rfl
  | cons p rest ih =>
      by_cases h : viewportKeeps vp p = true
      · simp [filter_projects_by_viewport, List.filter_cons, h, ih]
      · simp [filter_projects_by_viewport, List.filter_cons, h, ih]

theorem listSlice_of_nonneg {α : Type} (l : List α) (start k : ℤ) (h : 0 ≤ start) :
    listSlice l start (start + k) = (l.drop start.toNat).take k.toNat := by
  unfold listSlice
  rw [max_eq_left h, add_sub_cancel_left]

/- §13  The claims. -/

/-- Claim C3: every entity returned by the viewport filter has a parseable
coordinate pair (read from the lowercase key, falling back to the capitalized
one) lying inclusively within the validated viewport bounds; entities whose
coordinate field is empty or unparseable never appear; and the result preserves
the original relative order of the input (it is a sublist). -/
theorem viewport_filter_correct (projects : List GeoRecord) (a b c d : ℚ)
    (viewport : ViewportParams) (_hvp : mkViewportParams a b c d = .ok viewport) :
    (∀ p ∈ filter_projects_by_viewport projects viewport,
        ∃ lat lng, parseCoordinates (coordString p) = some (lat, lng) ∧
          viewport.min_lat ≤ lat ∧ lat ≤ viewport.max_lat ∧
          viewport.min_lng ≤ lng ∧ lng ≤ viewport.max_lng) ∧
    (∀ p : GeoRecord, coordString p = "" ∨ parseCoordinates (coordString p) = none →
        p ∉ filter_projects_by_viewport projects viewport) ∧
    (filter_projects_by_viewport projects viewport).Sublist projects := by
  rw [filter_projects_by_viewport_eq_filter]
  refine ⟨?_, ?_, List.filter_sublist projects⟩
  · intro p hp
    rw [List.mem_filter] at hp
    have hkeep := hp.2
    unfold viewportKeeps at hkeep
    cases hpc : parseCoordinates (coordString p) with
    | none => rw [hpc] at hkeep; exact absurd hkeep (by simp)
    | some c =>
        obtain ⟨lat, lng⟩ := c
        rw [hpc] at hkeep
        refine ⟨lat, lng, rfl, ?_⟩
        simpa [is_point_in_viewport, and_assoc] using hkeep
  · intro p hbad hmem
    have hnone : parseCoordinates (coordString p) = none := by
      cases hbad with
      | inl h => rw [h]; rfl
      | inr h => exact h
    rw [List.mem_filter] at hmem
    have hkeep := hmem.2
    unfold viewportKeeps at hkeep
    rw [hnone] at hkeep
    exact absurd hkeep (by simp)

/-- Claim C3 witness: on a concrete collection holding an in-bounds entity, an
empty-coordinates entity, an unparseable one and an out-of-bounds one, with the
concrete viewport [0,10]×[0,10] accepted by validation, the filter excludes the
empty-coordinates entity. -/
theorem viewport_filter_correct_witness :
    mkViewportParams 0 10 0 10 = .ok vpDemo ∧
    (⟨"", "", 1⟩ : GeoRecord) ∉ filter_projects_by_viewport demoGeo vpDemo :=
  ⟨rfl, (viewport_filter_correct demoGeo 0 10 0 10 vpDemo rfl).2.1 ⟨"", "", 1⟩ (Or.inl rfl)⟩

/-- Claim C4 counterexample: the claim's formula start = (page-1)*limit + offset,
stated for every offset input, fails for a negative offset.  At page=1, limit=1,
offset=-1 on a two-element in-viewport collection the claim prescribes the slice
filtered[-1:0], which is empty, while the code clamps the offset to 0 first and
returns the first element. -/
theorem viewport_pagination_offset_counterexample :
    get_projects_in_viewport [geoA, geoB] 0 10 0 10 1 1 (-1) =
      .ok ⟨2, 1, 1, 0, vpDemo, [geoA], true, none⟩ ∧
    listSlice (filter_projects_by_viewport [geoA, geoB] vpDemo)
      ((1 - 1) * 1 + (-1)) ((1 - 1) * 1 + (-1) + 1) = [] ∧
    ([geoA] : List GeoRecord) ≠ [] := by
  refine ⟨?_, ?_, by decide⟩
  · rfl
  · rfl

/-- Claim C4 amended: as the claim states, except that the offset input is also
clamped to be nonnegative before the start index is computed, i.e.
start = (page-1)*limit + max(0, offset).  With that clamp the response echoes the
filtered total, the clamped pagination parameters and the validated viewport,
returns the empty page with has_more=false and the informational message when
start ≥ len(filtered), and otherwise the slice filtered[start:start+limit] with
has_more = (start+limit < len(filtered)). -/
theorem get_projects_in_viewport_spec (cache : List GeoRecord) (a b c d : ℚ)
    (page limit offset : ℤ) (viewport : ViewportParams)
    (hvp : mkViewportParams a b c d = .ok viewport) :
    ∃ resp, get_projects_in_viewport cache a b c d page limit offset = .ok resp ∧
      resp.total = (filter_projects_by_viewport cache viewport).length ∧
      resp.page = max 1 page ∧
      resp.limit = min 500 (max 1 limit) ∧
      resp.offset = max 0 offset ∧
      resp.viewport = viewport ∧
      ((max 1 page - 1) * min 500 (max 1 limit) + max 0 offset ≥
          ((filter_projects_by_viewport cache viewport).length : ℤ) →
        resp.projects = [] ∧ resp.has_more = false ∧
        resp.message = some "Page number exceeds available data for this viewport") ∧
      ((max 1 page - 1) * min 500 (max 1 limit) + max 0 offset <
          ((filter_projects_by_viewport cache viewport).length : ℤ) →
        resp.projects = listSlice (filter_projects_by_viewport cache viewport)
            ((max 1 page - 1) * min 500 (max 1 limit) + max 0 offset)
            ((max 1 page - 1) * min 500 (max 1 limit) + max 0 offset + min 500 (max 1 limit)) ∧
        resp.has_more = decide ((max 1 page - 1) * min 500 (max 1 limit) + max 0 offset +
            min 500 (max 1 limit) < ((filter_projects_by_viewport cache viewport).length : ℤ)) ∧
        resp.message = none) := by
  have hstart : (0 : ℤ) ≤ (max 1 page - 1) * min 500 (max 1 limit) + max 0 offset := by
    have h1 : (1 : ℤ) ≤ max 1 page := le_max_left _ _
    have h2 : (1 : ℤ) ≤ min 500 (max 1 limit) := le_min (by norm_num) (le_max_left _ _)
    have h3 : (0 : ℤ) ≤ max 0 offset := le_max_left _ _
    have := mul_nonneg (by linarith : (0 : ℤ) ≤ max 1 page - 1) (by linarith : (0 : ℤ) ≤ min 500 (max 1 limit))
    linarith
  unfold get_projects_in_viewport
  rw [hvp]
  dsimp only
  split
  · rename_i hov
    exact ⟨_, rfl, rfl, rfl, rfl, rfl, rfl, fun _ => ⟨rfl, rfl, rfl⟩,
      fun hlt => absurd hov (not_le.mpr hlt)⟩
  · rename_i hov
    refine ⟨_, rfl, rfl, rfl, rfl, rfl, rfl, fun hge => absurd hge hov, fun _ => ⟨?_, rfl, rfl⟩⟩
    exact (listSlice_of_nonneg _ _ _ hstart).symm

/-- Claim C4 amended witness: at a concrete single-entity cache with viewport
[0,10]×[0,10], page 1, limit 12, offset 0 the pagination response exists and
echoes the filtered total. -/
theorem get_projects_in_viewport_spec_witness :
    ∃ resp, get_projects_in_viewport [geoA] 0 10 0 10 1 12 0 = .ok resp ∧
      resp.total = (filter_projects_by_viewport [geoA] vpDemo).length :=
  match get_projects_in_viewport_spec [geoA] 0 10 0 10 1 12 0 vpDemo rfl with
  | ⟨resp, h1, h2, _⟩ => ⟨resp, h1, h2⟩

theorem nameLe_trans (a b c : NamedRecord) (hab : nameLe a b = true) (hbc : nameLe b c = true) :
    nameLe a c = true := by
  simp only [nameLe, decide_eq_true_eq] at *
  exact le_trans hab hbc

theorem nameLe_total (a b : NamedRecord) : (nameLe a b || nameLe b a) = true := by
  simp only [nameLe, Bool.or_eq_true, decide_eq_true_eq]
  exact le_total _ _

theorem sortedMatches_mem (term : String) (index : List (String × List Nat))
    (cache : List NamedRecord) (e : NamedRecord) :
    e ∈ sortedMatches term index cache ↔
      ∃ kv ∈ index, strStartsWith kv.1 term = true ∧ ∃ i ∈ kv.2, cache.get? i = some e := by
  unfold sortedMatches
  rw [(List.mergeSort_perm _ nameLe).mem_iff, List.mem_filterMap]
  constructor
  · rintro ⟨i, hi, hget⟩
    rw [prefixMatchPositions, List.mem_dedup, List.mem_flatMap] at hi
    obtain ⟨kv, hkv, hik⟩ := hi
    rw [List.mem_filter] at hkv
    exact ⟨kv, hkv.1, hkv.2, i, hik, hget⟩
  · rintro ⟨kv, hkv, hpre, i, hik, hget⟩
    refine ⟨i, ?_, hget⟩
    rw [prefixMatchPositions, List.mem_dedup, List.mem_flatMap]
    exact ⟨kv, List.mem_filter.mpr ⟨hkv, hpre⟩, hik⟩

theorem sortedMatches_sorted (term : String) (index : List (String × List Nat))
    (cache : List NamedRecord) :
    List.Pairwise (fun a b => nameLe a b = true) (sortedMatches term index cache) :=
  List.sorted_mergeSort (fun a b c => nameLe_trans a b c) nameLe_total _

/-- Claim C5: for every non-empty search term, index and collection (with the
index positions in range), prefix search materializes exactly the entities whose
positions appear under some index key that starts with the term (duplicates
across overlapping keys collapsed), sorts them by lowercased name, and slices
by offset and limit with the limit clamped to [1,100]; an offset at or past the
total yields an empty page with has_more = false. -/
theorem search_projects_correct (term : String) (index : List (String × List Nat))
    (cache : List NamedRecord) (limit offset : ℤ) (hterm : term ≠ "")
    (hpos : ∀ i ∈ prefixMatchPositions term index, i < cache.length) :
    ∃ resp, search_projects term index cache limit offset = .ok resp ∧
      (∀ e, e ∈ sortedMatches term index cache ↔
        ∃ kv ∈ index, strStartsWith kv.1 term = true ∧ ∃ i ∈ kv.2, cache.get? i = some e) ∧
      List.Pairwise (fun a b => nameLe a b = true) (sortedMatches term index cache) ∧
      resp.total = (sortedMatches term index cache).length ∧
      resp.limit = min 100 (max 1 limit) ∧
      resp.offset = max 0 offset ∧
      (max 0 offset ≥ ((sortedMatches term index cache).length : ℤ) →
        resp.projects = [] ∧ resp.has_more = false) ∧
      (max 0 offset < ((sortedMatches term index cache).length : ℤ) →
        resp.projects = ((sortedMatches term index cache).drop (max 0 offset).toNat).take
            (min 100 (max 1 limit)).toNat ∧
        resp.has_more = decide (max 0 offset + min 100 (max 1 limit) <
            ((sortedMatches term index cache).length : ℤ))) := by
  have hall : (prefixMatchPositions term index).all (fun i => decide (i < cache.length)) = true :=
    List.all_eq_true.mpr fun i hi => decide_eq_true (hpos i hi)
  unfold search_projects
  rw [if_neg hterm]
  dsimp only
  rw [if_pos hall]
  split
  · rename_i hov
    exact ⟨_, rfl, fun e => sortedMatches_mem term index cache e,
      sortedMatches_sorted term index cache, rfl, rfl, rfl,
      fun _ => ⟨rfl, rfl⟩, fun hlt => absurd hov (not_le.mpr hlt)⟩
  · rename_i hov
    exact ⟨_, rfl, fun e => sortedMatches_mem term index cache e,
      sortedMatches_sorted term index cache, rfl, rfl, rfl,
      fun hge => absurd hge hov, fun _ => ⟨rfl, rfl⟩⟩

/-- Claim C5 witness: searching "kal" against a concrete index holding
"kalhaar blues" at position 3, "kalptaru" at position 7 and an unrelated key,
over a ten-entity collection, succeeds and reports the matching total. -/
theorem search_projects_correct_witness :
    ∃ resp, search_projects "kal" demoNameIndex demoNamedCache 12 0 = .ok resp ∧
      resp.total = (sortedMatches "kal" demoNameIndex demoNamedCache).length :=
  match search_projects_correct "kal" demoNameIndex demoNamedCache 12 0 (by decide) (by decide) with
  | ⟨resp, h1, _, _, h4, _⟩ => ⟨resp, h1, h4⟩

theorem mem_filterResGo (pm px : Option ℚ) (bhkN : Option (List String))
    (tt : Option String) (ptN locN : Option (List String))
    (props : List (Option PropRecord)) (x : PropRecord) :
    x ∈ filterResGo pm px bhkN tt ptN locN props ↔
      some x ∈ props ∧ residentialPasses pm px bhkN tt ptN locN x = true := by
  induction props with
  | nil => simp [filterResGo]
  | cons h rest ih =>
      cases h with
      | none => simp [filterResGo, ih]
      | some p =>
          by_cases hp : residentialPasses pm px bhkN tt ptN locN p = true
          · have hstep : filterResGo pm px bhkN tt ptN locN (some p :: rest) =
                p :: filterResGo pm px bhkN tt ptN locN rest := by
              simp [filterResGo, hp]
            rw [hstep]
            simp only [List.mem_cons, ih, Option.some.injEq]
            constructor
            · rintro (rfl | ⟨hm, hpass⟩)
              · exact ⟨Or.inl rfl, hp⟩
              · exact ⟨Or.inr hm, hpass⟩
            · rintro ⟨rfl | hm, hpass⟩
              · exact Or.inl rfl
              · exact Or.inr ⟨hm, hpass⟩
          · have hstep : filterResGo pm px bhkN tt ptN locN (some p :: rest) =
                filterResGo pm px bhkN tt ptN locN rest := by
              simp [filterResGo, hp]
            rw [hstep]
            simp only [List.mem_cons, ih, Option.some.injEq]
            constructor
            · rintro ⟨hm, hpass⟩
              exact ⟨Or.inr hm, hpass⟩
            · rintro ⟨rfl | hm, hpass⟩
              · exact absurd hpass hp
              · exact ⟨hm, hpass⟩

theorem mem_filterComGo (pm px : Option ℚ) (tt : Option String)
    (ptN locN : Option (List String)) (props : List (Option PropRecord)) (x : PropRecord) :
    x ∈ filterComGo pm px tt ptN locN props ↔
      some x ∈ props ∧ commercialPasses pm px tt ptN locN x = true := by
  induction props with
  | nil => simp [filterComGo]
  | cons h rest ih =>
      cases h with
      | none => simp [filterComGo, ih]
      | some p =>
          by_cases hp : commercialPasses pm px tt ptN locN p = true
          · have hstep : filterComGo pm px tt ptN locN (some p :: rest) =
                p :: filterComGo pm px tt ptN locN rest := by
              simp [filterComGo, hp]
            rw [hstep]
            simp only [List.mem_cons, ih, Option.some.injEq]
            constructor
            · rintro (rfl | ⟨hm, hpass⟩)
              · exact ⟨Or.inl rfl, hp⟩
              · exact ⟨Or.inr hm, hpass⟩
            · rintro ⟨rfl | hm, hpass⟩
              · exact Or.inl rfl
              · exact Or.inr ⟨hm, hpass⟩
          · have hstep : filterComGo pm px tt ptN locN (some p :: rest) =
                filterComGo pm px tt ptN locN rest := by
              simp [filterComGo, hp]
            rw [hstep]
            simp only [List.mem_cons, ih, Option.some.injEq]
            constructor
            · rintro ⟨hm, hpass⟩
              exact ⟨Or.inr hm, hpass⟩
            · rintro ⟨rfl | hm, hpass⟩
              · exact absurd hpass hp
              · exact ⟨hm, hpass⟩

/-- Claim C6: a property whose price is text with thousands separators or a
currency glyph is parsed to a number before comparison and is included when the
parsed value lies inclusively within [priceMin, priceMax] (price being the only
supplied criterion), and a property with an unparseable price is excluded from
the result of either filter whenever any price bound is supplied, whatever the
other criteria are. -/
theorem price_filter_parsing_correct (props : List (Option PropRecord)) (p : PropRecord)
    (s : String) (q priceMin priceMax : ℚ) (hmem : some p ∈ props)
    (hps : p.price = some (.str s)) (hq : parsePriceStr s = some q)
    (hlo : priceMin ≤ q) (hhi : q ≤ priceMax) :
    (p ∈ filter_residential_properties props (some priceMin) (some priceMax) none none none none ∧
     p ∈ filter_commercial_properties props (some priceMin) (some priceMax) none none none) ∧
    (∀ (props2 : List (Option PropRecord)) (p2 : PropRecord) (s2 : String),
      p2.price = some (.str s2) → parsePriceStr s2 = none →
      ∀ pmin2 pmax2 : Option ℚ, (pmin2.isSome ∨ pmax2.isSome) →
      ∀ (bhk : Option StrOrList) (tt : Option String) (pt loc : Option StrOrList),
        p2 ∉ filter_residential_properties props2 pmin2 pmax2 bhk tt pt loc ∧
        p2 ∉ filter_commercial_properties props2 pmin2 pmax2 tt pt loc) := by
  have h1 : decide (q < priceMin) = false := decide_eq_false (not_lt.mpr hlo)
  have h2 : decide (priceMax < q) = false := decide_eq_false (not_lt.mpr hhi)
  have hpass : residentialPasses (some priceMin) (some priceMax) none none none none p = true := by
    simp [residentialPasses, propPriceParsed, hps, hq, h1, h2]
  constructor
  · constructor
    · exact (mem_filterResGo _ _ _ _ _ _ props p).mpr ⟨hmem, hpass⟩
    · exact (mem_filterComGo _ _ _ _ _ props p).mpr ⟨hmem, hpass⟩
  · intro props2 p2 s2 hps2 hnone2 pmin2 pmax2 hbound bhk tt pt loc
    have hpp : propPriceParsed p2.price = none := by
      rw [hps2]
      exact hnone2
    have hfail : ∀ bhkN ptN locN, residentialPasses pmin2 pmax2 bhkN tt ptN locN p2 = false := by
      intro bhkN ptN locN
      rcases hbound with h | h
      · obtain ⟨lo, rfl⟩ := Option.isSome_iff_exists.mp h
        simp [residentialPasses, hpp]
      · obtain ⟨hi, rfl⟩ := Option.isSome_iff_exists.mp h
        cases pmin2 with
        | none => simp [residentialPasses, hpp]
        | some lo => simp [residentialPasses, hpp]
    constructor
    · intro hmem2
      have := ((mem_filterResGo _ _ _ _ _ _ props2 p2).mp hmem2).2
      rw [hfail] at this
      exact Bool.false_ne_true this
    · intro hmem2
      have := ((mem_filterComGo _ _ _ _ _ props2 p2).mp hmem2).2
      rw [show commercialPasses pmin2 pmax2 tt (normListArgLower pt) (normListArgLower loc) p2 =
        residentialPasses pmin2 pmax2 none tt (normListArgLower pt) (normListArgLower loc) p2 from rfl,
        hfail] at this
      exact Bool.false_ne_true this

/-- Claim C6 witness: the property with price "1,50,000" is included by both
filters under priceMin=100000, priceMax=200000, all other criteria unspecified. -/
theorem price_filter_parsing_correct_witness :
    demoPropA ∈ filter_residential_properties [some demoPropA] (some 100000) (some 200000)
        none none none none ∧
    demoPropA ∈ filter_commercial_properties [some demoPropA] (some 100000) (some 200000)
        none none none :=
  (price_filter_parsing_correct [some demoPropA] demoPropA "1,50,000" 150000 100000 200000
    (by decide) rfl (by decide) (by decide) (by decide)).1

theorem residentialPasses_all_none (p : PropRecord) :
    residentialPasses none none none none none none p = true := rfl

theorem filterResGo_all_none (props : List (Option PropRecord)) :
    filterResGo none none none none none none props = props.reduceOption := by
  induction props with
  | nil => rfl
  | cons h rest ih =>
      cases h with
      | none => simp [filterResGo, ih, List.reduceOption]
      | some p => simp [filterResGo, residentialPasses_all_none, ih, List.reduceOption]

theorem filterComGo_all_none (props : List (Option PropRecord)) :
    filterComGo none none none none none props = props.reduceOption := by
  induction props with
  | nil => rfl
  | cons h rest ih =>
      cases h with
      | none => simp [filterComGo, ih, List.reduceOption]
      | some p =>
          simp [filterComGo, commercialPasses, residentialPasses_all_none, ih, List.reduceOption]

theorem filterResGo_sublist (pm px : Option ℚ) (bhkN : Option (List String))
    (tt : Option String) (ptN locN : Option (List String)) (props : List (Option PropRecord)) :
    ((filterResGo pm px bhkN tt ptN locN props).map Option.some).Sublist props := by
  induction props with
  | nil => simp [filterResGo]
  | cons h rest ih =>
      cases h with
      | none =>
          have hstep : filterResGo pm px bhkN tt ptN locN (none :: rest) =
              filterResGo pm px bhkN tt ptN locN rest := rfl
          rw [hstep]
          exact List.Sublist.cons none ih
      | some p =>
          by_cases hp : residentialPasses pm px bhkN tt ptN locN p = true
          · have hstep : filterResGo pm px bhkN tt ptN locN (some p :: rest) =
                p :: filterResGo pm px bhkN tt ptN locN rest := by
              simp [filterResGo, hp]
            rw [hstep, List.map_cons]
            exact List.Sublist.cons₂ (some p) ih
          · have hstep : filterResGo pm px bhkN tt ptN locN (some p :: rest) =
                filterResGo pm px bhkN tt ptN locN rest := by
              simp [filterResGo, hp]
            rw [hstep]
            exact List.Sublist.cons (some p) ih

theorem filterComGo_sublist (pm px : Option ℚ) (tt : Option String)
    (ptN locN : Option (List String)) (props : List (Option PropRecord)) :
    ((filterComGo pm px tt ptN locN props).map Option.some).Sublist props := by
  induction props with
  | nil => simp [filterComGo]
  | cons h rest ih =>
      cases h with
      | none =>
          have hstep : filterComGo pm px tt ptN locN (none :: rest) =
              filterComGo pm px tt ptN locN rest := rfl
          rw [hstep]
          exact List.Sublist.cons none ih
      | some p =>
          by_cases hp : commercialPasses pm px tt ptN locN p = true
          · have hstep : filterComGo pm px tt ptN locN (some p :: rest) =
                p :: filterComGo pm px tt ptN locN rest := by
              simp [filterComGo, hp]
            rw [hstep, List.map_cons]
            exact List.Sublist.cons₂ (some p) ih
          · have hstep : filterComGo pm px tt ptN locN (some p :: rest) =
                filterComGo pm px tt ptN locN rest := by
              simp [filterComGo, hp]
            rw [hstep]
            exact List.Sublist.cons (some p) ih

/-- Claim C10: with every criterion unspecified, both attribute filters return
the input with null entries removed, in the original order; and in general each
filter's output (viewed through the some wrapper) is a subsequence of its
input. -/
theorem attribute_filters_subsequence (props : List (Option PropRecord)) :
    filter_residential_properties props none none none none none none = props.reduceOption ∧
    filter_commercial_properties props none none none none none = props.reduceOption ∧
    (∀ (pm px : Option ℚ) (bhk : Option StrOrList) (tt : Option String)
        (pt loc : Option StrOrList),
      ((filter_residential_properties props pm px bhk tt pt loc).map Option.some).Sublist props) ∧
    (∀ (pm px : Option ℚ) (tt : Option String) (pt loc : Option StrOrList),
      ((filter_commercial_properties props pm px tt pt loc).map Option.some).Sublist props) :=
  ⟨filterResGo_all_none props, filterComGo_all_none props,
    fun pm px bhk tt pt loc => filterResGo_sublist pm px (normBhkArg bhk) tt
      (normListArgLower pt) (normListArgLower loc) props,
    fun pm px tt pt loc => filterComGo_sublist pm px tt
      (normListArgLower pt) (normListArgLower loc) props⟩

/-- Claim C7 counterexample: a commercial project record that formats
successfully yields an entity with no airtable_id key at all, while the
residential formatter run on the same record does carry it. -/
theorem format_commercial_project_missing_airtable_id :
    (format_commercial_project ⟨some "rec1", some []⟩).map (fun e => fget e "airtable_id") =
      some none ∧
    (format_residential_project ⟨some "rec1", some []⟩).map (fun e => fget e "airtable_id") =
      some (some (.str "rec1")) :=
  ⟨rfl, rfl⟩

/-- Claim C7 amended: three of the four formatters — residential project,
residential property and commercial property — always place an airtable_id field
equal to the raw record's id in their output; the commercial project formatter
omits it (see the counterexample). -/
theorem formatters_airtable_id :
    (∀ (r : AirtableRecord) (e : Entity), format_residential_project r = some e →
      ∃ rid, r.id = some rid ∧ fget e "airtable_id" = some (.str rid)) ∧
    (∀ (r : AirtableRecord) (cache : List (Option Entity)) (e : Entity),
      format_residential_property r cache = some e →
      ∃ rid, r.id = some rid ∧ fget e "airtable_id" = some (.str rid)) ∧
    (∀ (r : AirtableRecord) (e : Entity), format_commercial_property r = some e →
      ∃ rid, r.id = some rid ∧ fget e "airtable_id" = some (.str rid)) := by
  refine ⟨?_, ?_, ?_⟩
  · rintro ⟨rid?, flds?⟩ e h
    cases flds? with
    | none => simp [format_residential_project] at h
    | some fields =>
        cases rid? with
        | none => simp [format_residential_project] at h
        | some rid =>
            refine ⟨rid, rfl, ?_⟩
            simp only [format_residential_project] at h
            split at h
            · exact absurd h (by simp)
            · rw [Option.some.injEq] at h
              subst h
              rfl
  · rintro ⟨rid?, flds?⟩ cache e h
    cases flds? with
    | none => simp [format_residential_property] at h
    | some fields =>
        cases rid? with
        | none =>
            simp only [format_residential_property] at h
            split at h
            · rename_i heq1 heq2
              exact absurd heq2 (by simp)
            · simp at h
        | some rid =>
            refine ⟨rid, rfl, ?_⟩
            simp only [format_residential_property] at h
            split at h
            · rename_i heq1 heq2
              rw [Option.some.injEq] at heq2
              subst heq2
              rw [Option.some.injEq] at h
              subst h
              rfl
            · simp at h
  · rintro ⟨rid?, flds?⟩ e h
    cases flds? with
    | none => simp [format_commercial_property] at h
    | some fields =>
        cases rid? with
        | none => simp [format_commercial_property] at h
        | some rid =>
            refine ⟨rid, rfl, ?_⟩
            simp only [format_commercial_property] at h
            rw [Option.some.injEq] at h
            subst h
            rfl

/-- Claim C7 amended witness: the residential project formatter run on a concrete
record with id "rec1" yields an entity whose airtable_id field is "rec1". -/
theorem formatters_airtable_id_witness :
    ∃ rid, (AirtableRecord.mk (some "rec1") (some [])).id = some rid ∧
      fget resEntityDemo "airtable_id" = some (.str rid) :=
  formatters_airtable_id.1 ⟨some "rec1", some []⟩ resEntityDemo rfl

/-- Claim C9: a null cache entry is not skipped by these consumers.  The
photo-backfill lookup raises (AttributeError on None.get) as soon as it reaches
the null entry, even though a matching project follows it, while on the null-free
cache it succeeds; the by-id scan raises on the null entry even though the
requested entity follows it, while on the null-free cache it finds the entity;
and through the backfill the null entry turns the formatting of an otherwise
well-formed property record into a null result. -/
theorem null_entry_consumers_raise :
    get_linked_project_photos (.list ["R1"])
      [none, some [("rera", FieldVal.str "R1"), ("photos", FieldVal.str "x.jpg,y.jpg")]] =
      .error () ∧
    get_linked_project_photos (.list ["R1"])
      [some [("rera", FieldVal.str "R1"), ("photos", FieldVal.str "x.jpg,y.jpg")]] =
      .ok (some ["x.jpg", "y.jpg"]) ∧
    property_by_id_scan [none, some [("airtable_id", FieldVal.str "rec1")]] (some "rec1") =
      .error () ∧
    property_by_id_scan [some [("airtable_id", FieldVal.str "rec1")]] (some "rec1") =
      .ok (some [("airtable_id", FieldVal.str "rec1")]) ∧
    format_residential_property
      ⟨some "recP", some [("RERA Number (from residential projects)", FieldVal.list ["R1"])]⟩
      [none, some [("rera", FieldVal.str "R1"), ("photos", FieldVal.str "x.jpg")]] = none :=
  ⟨rfl, rfl, rfl, rfl, rfl⟩

/-- Claim C8 counterexample: starting from a READY state with a nonempty
residential collection, update_cache on a failing fetch still answers
status "success" and overwrites the collections (they become empty), instead of
propagating the error and leaving them untouched. -/
theorem update_cache_failure_counterexample :
    (update_cache c8PriorState (.error ())).2.status = "success" ∧
    (update_cache c8PriorState (.error ())).1.residential_projects_cache = [] ∧
    c8PriorState.residential_projects_cache ≠ [] ∧
    (update_cache c8PriorState (.error ())).1.cache_initialized = true :=
  ⟨rfl, rfl, by decide, rfl⟩

/-- Claim C8 amended: update_cache reruns population synchronously regardless of
the current lifecycle state (it always invokes init_cache and always reports
success with the new residential count); on population failure the exception is
swallowed inside init_cache, the five collections are reset to empty, the
indices and both lifecycle flags are left unchanged, and the caller still
receives the success response — no error is propagated. -/
theorem update_cache_spec (s : CacheState) (fetch : Except Unit FetchData) :
    (update_cache s fetch).1 = init_cache s fetch ∧
    (update_cache s fetch).2 = ⟨"success", "Cache updated successfully",
      (init_cache s fetch).residential_projects_cache.length⟩ ∧
    (∀ e : Unit, fetch = .error e →
      ((update_cache s fetch).1.residential_projects_cache = [] ∧
        (update_cache s fetch).1.commercial_projects_cache = [] ∧
        (update_cache s fetch).1.residential_properties_cache = [] ∧
        (update_cache s fetch).1.commercial_properties_cache = [] ∧
        (update_cache s fetch).1.localities_cache = []) ∧
      ((update_cache s fetch).1.commercial_projects_name_index =
          s.commercial_projects_name_index ∧
        (update_cache s fetch).1.residential_projects_name_index =
          s.residential_projects_name_index ∧
        (update_cache s fetch).1.cache_initialization_started =
          s.cache_initialization_started ∧
        (update_cache s fetch).1.cache_initialized = s.cache_initialized) ∧
      (update_cache s fetch).2.status = "success") := by
  refine ⟨rfl, rfl, ?_⟩
  rintro e rfl
  exact ⟨⟨rfl, rfl, rfl, rfl, rfl⟩, ⟨rfl, rfl, rfl, rfl⟩, rfl⟩

/-- Claim C8 amended witness: at the concrete READY state and a failing fetch,
update_cache empties the residential collection without propagating any error. -/
theorem update_cache_spec_witness :
    (update_cache c8PriorState (Except.error ())).1.residential_projects_cache = [] ∧
    (update_cache c8PriorState (Except.error ())).2.status = "success" :=
  ⟨((update_cache_spec c8PriorState (.error ())).2.2 () rfl).1.1,
    ((update_cache_spec c8PriorState (.error ())).2.2 () rfl).2.2⟩

/-- Claim C1 counterexample: after init_cache fails from a state whose commercial
name index holds an entry and whose initialization-started flag is set, the index
is not cleared, the flag is still set (the lifecycle has not reverted to EMPTY),
and the subsequent ensure_cache_initialized call launches no new population run
and leaves the state unchanged. -/
theorem init_cache_exception_claim_counterexample :
    (init_cache c1FailState (.error ())).commercial_projects_name_index = [("a", [0])] ∧
    ([("a", [0])] : List (String × List Nat)) ≠ [] ∧
    (init_cache c1FailState (.error ())).cache_initialization_started = true ∧
    ensure_cache_initialized (init_cache c1FailState (.error ())) =
      (false, false, init_cache c1FailState (.error ())) :=
  ⟨rfl, by decide, rfl, rfl⟩

/-- Claim C1 amended: on an exception during population the five collections are
reset to empty, but the name indices are left as they were, the
initialization-started flag is not reset (the lifecycle does not revert to
EMPTY) and the initialized flag keeps its value; consequently, whenever a
population run had been started, a subsequent ensure_cache_initialized call
launches no new population run and leaves the state unchanged. -/
theorem init_cache_exception_resets_collections_only (s : CacheState) (e : Unit) :
    ((init_cache s (.error e)).residential_projects_cache = [] ∧
      (init_cache s (.error e)).commercial_projects_cache = [] ∧
      (init_cache s (.error e)).residential_properties_cache = [] ∧
      (init_cache s (.error e)).commercial_properties_cache = [] ∧
      (init_cache s (.error e)).localities_cache = []) ∧
    ((init_cache s (.error e)).commercial_projects_name_index =
        s.commercial_projects_name_index ∧
      (init_cache s (.error e)).residential_projects_name_index =
        s.residential_projects_name_index ∧
      (init_cache s (.error e)).cache_initialization_started =
        s.cache_initialization_started ∧
      (init_cache s (.error e)).cache_initialized = s.cache_initialized) ∧
    (s.cache_initialization_started = true →
      (ensure_cache_initialized (init_cache s (.error e))).2.1 = false ∧
      (ensure_cache_initialized (init_cache s (.error e))).2.2 = init_cache s (.error e)) := by
  refine ⟨⟨rfl, rfl, rfl, rfl, rfl⟩, ⟨rfl, rfl, rfl, rfl⟩, ?_⟩
  intro hs
  by_cases hi : s.cache_initialized = true
  · constructor <;> simp [ensure_cache_initialized, init_cache, hi]
  · have hi2 : s.cache_initialized = false := by rwa [Bool.not_eq_true] at hi
    constructor <;> simp [ensure_cache_initialized, init_cache, hi2, hs]

/-- Claim C1 amended witness: from the concrete failed state with the
started flag set, the next ensure_cache_initialized launches nothing. -/
theorem init_cache_exception_resets_collections_only_witness :
    (ensure_cache_initialized (init_cache c1FailState (Except.error ()))).2.1 = false :=
  ((init_cache_exception_resets_collections_only c1FailState ()).2.2 rfl).1

/-- Claim C2 counterexample: the two flag checks and the set-and-launch of
ensure_cache_initialized are separate steps with no lock.  Under the
interleaving A,A,B,B,A,B of two threads that each run one call from the EMPTY
state, both threads pass the started-flag check before either sets it, and two
population runs are launched — more than one between two completions. -/
theorem ensure_cache_initialized_race_counterexample :
    (runSchedule ⟨false, false, .checkInit, .checkInit, 0⟩
      [false, false, true, true, false, true]).launches = 2 ∧
    ¬((runSchedule ⟨false, false, .checkInit, .checkInit, 0⟩
      [false, false, true, true, false, true]).launches ≤ 1) :=
  ⟨rfl, by decide⟩

theorem ensureLaunches_of_flagged (s : CacheState)
    (h : s.cache_initialization_started = true ∨ s.cache_initialized = true) :
    ∀ n, ensureLaunches s n = 0 := by
  intro n
  induction n with
  | zero => rfl
  | succ n ih =>
      rcases h with hs | hi
      · by_cases hi2 : s.cache_initialized = true
        · simp [ensureLaunches, ensure_cache_initialized, hi2, ih]
        · have hi3 : s.cache_initialized = false := by rwa [Bool.not_eq_true] at hi2
          simp [ensureLaunches, ensure_cache_initialized, hi3, hs, ih]
      · simp [ensureLaunches, ensure_cache_initialized, hi, ih]

/-- Claim C2 amended: executed atomically (calls not interleaved),
ensure_cache_initialized returns true exactly when the initialized flag is set;
in the LOADING state (started, not initialized) it returns false, launches
nothing and leaves the state unchanged; in the EMPTY state it returns false,
launches the population task and moves the state to LOADING; and across any
sequence of consecutive atomic calls at most one population run is ever
launched.  The unguarded check-then-set does admit an interleaving with two
launches (see the counterexample). -/
theorem ensure_cache_initialized_atomic_spec (s : CacheState) :
    ((ensure_cache_initialized s).1 = s.cache_initialized) ∧
    (s.cache_initialized = false → s.cache_initialization_started = true →
      ensure_cache_initialized s = (false, false, s)) ∧
    (s.cache_initialized = false → s.cache_initialization_started = false →
      ensure_cache_initialized s =
        (false, true, ⟨s.residential_projects_cache, s.commercial_projects_cache,
          s.residential_properties_cache, s.commercial_properties_cache, s.localities_cache,
          s.commercial_projects_name_index, s.residential_projects_name_index,
          true, false⟩)) ∧
    (∀ n, ensureLaunches s n ≤ 1) := by
  refine ⟨?_, ?_, ?_, ?_⟩
  · by_cases hi : s.cache_initialized = true
    · simp [ensure_cache_initialized, hi]
    · have hi2 : s.cache_initialized = false := by rwa [Bool.not_eq_true] at hi
      by_cases hs : s.cache_initialization_started = true
      · simp [ensure_cache_initialized, hi2, hs]
      · have hs2 : s.cache_initialization_started = false := by rwa [Bool.not_eq_true] at hs
        simp [ensure_cache_initialized, hi2, hs2]
  · intro hi hs
    simp [ensure_cache_initialized, hi, hs]
  · intro hi hs
    simp [ensure_cache_initialized, hi, hs]
  · intro n
    cases n with
    | zero => simp [ensureLaunches]
    | succ n =>
        by_cases hi : s.cache_initialized = true
        · rw [ensureLaunches_of_flagged s (Or.inr hi) (n + 1)]
          exact Nat.zero_le 1
        · by_cases hs : s.cache_initialization_started = true
          · rw [ensureLaunches_of_flagged s (Or.inl hs) (n + 1)]
            exact Nat.zero_le 1
          · have hi2 : s.cache_initialized = false := by rwa [Bool.not_eq_true] at hi
            have hs2 : s.cache_initialization_started = false := by rwa [Bool.not_eq_true] at hs
            have hzero : ensureLaunches ⟨s.residential_projects_cache,
                s.commercial_projects_cache, s.residential_properties_cache,
                s.commercial_properties_cache, s.localities_cache,
                s.commercial_projects_name_index, s.residential_projects_name_index,
                true, false⟩ n = 0 :=
              ensureLaunches_of_flagged _ (Or.inl rfl) n
            simp [ensureLaunches, ensure_cache_initialized, hi2, hs2, hzero]

/-- Claim C2 amended witness: at the concrete LOADING state the call is a no-op
returning false; at the concrete EMPTY state the call launches the population
task. -/
theorem ensure_cache_initialized_atomic_spec_witness :
    ensure_cache_initialized loadingCacheState = (false, false, loadingCacheState) ∧
    (ensure_cache_initialized emptyCacheState).2.1 = true := by
  constructor
  · exact (ensure_cache_initialized_atomic_spec loadingCacheState).2.1 rfl rfl
  · rw [(ensure_cache_initialized_atomic_spec emptyCacheState).2.2.1 rfl rfl]

end ProjectsApi
